import Mathlib

/-!
Verification of the ledger data layer of `src/main.py`.

The program keeps two SQLite tables, `Customers (account, name, balance)`
and `Transactions (number, account, date, amount, DC)`, and exposes the
operations `add_customer`, `update_customer`, `delete_customer`,
`transact`, `display_customers`, `display_transactions`,
`generate_random_account_number`, `account_exists` and the schema
initialiser `CREATE_DEFAULT_TABLES`.

This file gives a shallow embedding of that layer.  SQLite DOUBLE values
are modelled as rationals (`Rat`); the two tables are lists kept in
insertion (rowid) order; the AUTOINCREMENT surrogate is an explicit
counter.  SQLite's transactional behaviour is modelled by an explicit
fault-injection parameter: a statement inside the `try` block either
executes or raises `sqlite3.Error`, and the `except` handler issues
`rollback()`, which restores the state the connection saw at the start
of the transaction.  Note that the program never issues
`PRAGMA foreign_keys = ON`, so SQLite does NOT enforce the
`FOREIGN KEY (account) REFERENCES Customers(account)` clause of the
`Transactions` table; only the `CHECK (DC IN ('D','C'))` constraint is
active.  The embedding reflects both facts.
-/

/-- A row of the `Customers` table: `account CHAR(15) PRIMARY KEY`,
`name VARCHAR(30)`, `balance DOUBLE`. -/
structure Customer where
  account : String
  name : String
  balance : Rat
deriving DecidableEq, Repr

/-- A row of the `Transactions` table: `number INTEGER PRIMARY KEY
AUTOINCREMENT`, `account CHAR(15)`, `date DATETIME`, `amount DOUBLE`,
`DC CHAR(1)`. -/
structure Txn where
  number : Nat
  account : String
  date : String
  amount : Rat
  dc : Char
deriving DecidableEq, Repr

/-- The database state: both tables in insertion (rowid) order, plus the
next AUTOINCREMENT surrogate for `Transactions.number`. -/
structure DBState where
  customers : List Customer
  transactions : List Txn
  nextNumber : Nat
deriving DecidableEq, Repr

/-- An amount argument before validation.  `validate_amount` in the
source calls `float(amount)` and raises on failure; `valid q` models an
argument representable as a DOUBLE, `invalid r` one for which `float`
raises `TypeError`/`ValueError`. -/
inductive RawAmount where
  | valid : Rat → RawAmount
  | invalid : String → RawAmount
deriving DecidableEq, Repr

/-- `validate_amount` (src/main.py:91): returns the parsed value, or
`none` when `float(amount)` raises, in which case the caller returns
without touching the store. -/
def validate_amount : RawAmount → Option Rat
  | .valid q => some q
  | .invalid _ => none

/-- `validate_customer_name` (src/main.py:75): `true` when the name is a
string of at most 30 characters; the source raises `ValueError` when
`len(name) > 30` and the callers catch it and return early. -/
def validate_customer_name (name : String) : Bool :=
  name.length ≤ 30

/-- `account_exists` (src/main.py:372):
`SELECT 1 FROM Customers WHERE account = ?` and test for a row. -/
def account_exists (s : DBState) (account : String) : Bool :=
  s.customers.any (fun c => c.account == account)

/-- The balance of the first `Customers` row with the given account
(the row a `SELECT balance FROM Customers WHERE account = ?` would
surface first; under the PRIMARY KEY there is at most one). -/
def lookupBalance : List Customer → String → Option Rat
  | [], _ => none
  | c :: rest, a => if c.account = a then some c.balance else lookupBalance rest a

/-- Balance of an account in a database state. -/
def getBalance (s : DBState) (account : String) : Option Rat :=
  lookupBalance s.customers account

/-- The statement `UPDATE Customers SET balance = balance {op} ? WHERE
account = ?` of `transact` (src/main.py:222), where `op` is `+` when
`isDebit` and `-` otherwise: every matching row is adjusted. -/
def updateBalanceRows (rows : List Customer) (account : String) (amount : Rat)
    (isDebit : Bool) : List Customer :=
  rows.map (fun c =>
    if c.account = account then
      { c with balance := if isDebit then c.balance + amount else c.balance - amount }
    else c)

/-- The same balance update on a whole database state. -/
def updateBalance (s : DBState) (account : String) (amount : Rat)
    (isDebit : Bool) : DBState :=
  { s with customers := updateBalanceRows s.customers account amount isDebit }

/-- The statement `INSERT INTO Transactions (account, date, amount, DC)
VALUES (?, ?, ?, ?)` of `transact` (src/main.py:230).  The
`CHECK (DC IN ('D','C'))` constraint makes the insert raise
`sqlite3.IntegrityError` for any other direction (`none`).  The foreign
key on `account` is NOT enforced, because the program never enables
`PRAGMA foreign_keys`, so the insert succeeds for any account. -/
def insertTransaction (s : DBState) (account date : String) (amount : Rat)
    (dc : Char) : Option DBState :=
  if dc = 'D' ∨ dc = 'C' then
    some { s with
      transactions := s.transactions ++
        [{ number := s.nextNumber, account := account, date := date,
           amount := amount, dc := dc }],
      nextNumber := s.nextNumber + 1 }
  else none

/-- A point at which the underlying store raises `sqlite3.Error` during
the `try` block of `transact`; `noFault` is the normal run. -/
inductive Fault where
  | noFault
  | duringUpdate
  | duringInsert
  | duringCommit
deriving DecidableEq, Repr

/-- The outcome of a `transact` call. -/
inductive TransactOutcome where
  | committed
  | rolledBack
  | validationError
deriving DecidableEq, Repr

/-- `transact` (src/main.py:201).  Validates the amount (returning early
on failure, before any store access).  Then, inside one connection:
`UPDATE Customers SET balance = balance {op} ? WHERE account = ?` with
`op = "+" if DC == "D" else "-"`, followed by the `INSERT INTO
Transactions`, then `commit()`.  Any `sqlite3.Error` raised at any point
(injected via `fault`, or the CHECK-constraint violation of the insert)
reaches the `except` handler, which calls `rollback()`: the state the
transaction started from is restored. -/
def transact (s : DBState) (account date : String) (raw : RawAmount)
    (dc : Char) (fault : Fault) : DBState × TransactOutcome :=
  match validate_amount raw with
  | none => (s, .validationError)
  | some amount =>
    if fault = .duringUpdate then (s, .rolledBack)
    else
      let s1 := updateBalance s account amount (dc == 'D')
      if fault = .duringInsert then (s, .rolledBack)
      else
        match insertTransaction s1 account date amount dc with
        | none => (s, .rolledBack)
        | some s2 => if fault = .duringCommit then (s, .rolledBack) else (s2, .committed)

/-- One `transact` request in a sequence of calls: its date, (valid)
amount and direction character. -/
structure Call where
  date : String
  amount : Rat
  dc : Char
deriving DecidableEq, Repr

/-- A fault-free sequence of `transact` calls against one account,
applied in call order. -/
def transactSeq (s : DBState) (account : String) (calls : List Call) : DBState :=
  calls.foldl
    (fun st c => (transact st account c.date (RawAmount.valid c.amount) c.dc Fault.noFault).1) s

/-- The signed value of one call: Debit positive, Credit negative. -/
def signedValue (c : Call) : Rat :=
  if c.dc = 'D' then c.amount else -c.amount

/-- The signed sum of a sequence of calls, in call order. -/
def signedSum : List Call → Rat
  | [] => 0
  | c :: rest => signedValue c + signedSum rest

-- ### Basic lemmas about the balance update and `transact`

theorem lookupBalance_updateBalanceRows (rows : List Customer) (a : String)
    (amt : Rat) (isD : Bool) :
    lookupBalance (updateBalanceRows rows a amt isD) a =
      (lookupBalance rows a).map (fun b => if isD then b + amt else b - amt) := by
  induction rows with
  | nil => rfl
  | cons c rest ih =>
    by_cases h : c.account = a
    · simp [updateBalanceRows, lookupBalance, h]
    · simp only [updateBalanceRows, List.map_cons, lookupBalance, h, if_false,
        if_neg h] at ih ⊢
      exact ih

theorem account_exists_updateBalance (s : DBState) (a : String) (amt : Rat)
    (isD : Bool) (b : String) :
    account_exists (updateBalance s a amt isD) b = account_exists s b := by
  simp only [account_exists, updateBalance, updateBalanceRows, List.any_map]
  congr 1
  funext c
  by_cases h : c.account = a <;> simp [h, Function.comp]

theorem transact_ok (s : DBState) (a d : String) (amt : Rat) (dc : Char)
    (hdc : dc = 'D' ∨ dc = 'C') :
    transact s a d (RawAmount.valid amt) dc Fault.noFault =
      ({ customers := updateBalanceRows s.customers a amt (dc == 'D'),
         transactions := s.transactions ++
           [{ number := s.nextNumber, account := a, date := d,
              amount := amt, dc := dc }],
         nextNumber := s.nextNumber + 1 }, TransactOutcome.committed) := by
  simp [transact, validate_amount, insertTransaction, updateBalance, hdc]

theorem getBalance_transact_ok (s : DBState) (a d : String) (amt : Rat)
    (dc : Char) (hdc : dc = 'D' ∨ dc = 'C') :
    getBalance (transact s a d (RawAmount.valid amt) dc Fault.noFault).1 a =
      (getBalance s a).map
        (fun b => b + (if dc = 'D' then amt else -amt)) := by
  rw [transact_ok s a d amt dc hdc]
  simp only [getBalance, lookupBalance_updateBalanceRows]
  rcases hdc with h | h <;> subst h
  · have hDD : (('D' : Char) == 'D') = true := by decide
    simp [hDD]
  · have hCD : (('C' : Char) == 'D') = false := by decide
    simp [hCD, sub_eq_add_neg]

theorem account_exists_transact_ok (s : DBState) (a d : String) (amt : Rat)
    (dc : Char) (hdc : dc = 'D' ∨ dc = 'C') (b : String) :
    account_exists (transact s a d (RawAmount.valid amt) dc Fault.noFault).1 b =
      account_exists s b := by
  rw [transact_ok s a d amt dc hdc]
  have h1 : account_exists
      ({ customers := updateBalanceRows s.customers a amt (dc == 'D'),
         transactions := s.transactions ++
           [{ number := s.nextNumber, account := a, date := d,
              amount := amt, dc := dc }],
         nextNumber := s.nextNumber + 1 } : DBState) b =
      account_exists (updateBalance s a amt (dc == 'D')) b := rfl
  rw [h1, account_exists_updateBalance]

/-- Claim C1: for every account that exists and every finite sequence of
`transact` calls on it with representable amounts and direction in
{Debit, Credit}, the account's balance after all calls equals its
initial balance plus the signed sum of the amounts (Debit positive,
Credit negative), applied in call order. -/
theorem transact_balance_invariant (s : DBState) (a : String) (calls : List Call)
    (hex : account_exists s a = true)
    (hdc : ∀ c ∈ calls, c.dc = 'D' ∨ c.dc = 'C') :
    getBalance (transactSeq s a calls) a =
      (getBalance s a).map (fun b => b + signedSum calls) := by
  induction calls generalizing s with
  | nil =>
    simp [transactSeq, signedSum]
  | cons c rest ih =>
    have hc : c.dc = 'D' ∨ c.dc = 'C' := hdc c (List.mem_cons_self c rest)
    have hrest : ∀ x ∈ rest, x.dc = 'D' ∨ x.dc = 'C' :=
      fun x hx => hdc x (List.mem_cons_of_mem c hx)
    have hstep : transactSeq s a (c :: rest) =
        transactSeq (transact s a c.date (RawAmount.valid c.amount) c.dc Fault.noFault).1
          a rest := rfl
    rw [hstep,
      ih (transact s a c.date (RawAmount.valid c.amount) c.dc Fault.noFault).1
        ((account_exists_transact_ok s a c.date c.amount c.dc hc a).trans hex) hrest,
      getBalance_transact_ok s a c.date c.amount c.dc hc, Option.map_map]
    congr 1
    funext x
    simp only [Function.comp_apply, signedSum, signedValue]
    ring

/-- A closed instance of `transact_balance_invariant`: a Debit of 100
then a Credit of 30 on an existing account with balance 0 yields 70. -/
theorem transact_balance_invariant_witness :
    getBalance (transactSeq
        { customers := [{ account := "A00000000000001", name := "Alice", balance := 0 }],
          transactions := [], nextNumber := 1 }
        "A00000000000001"
        [{ date := "2024-01-01", amount := 100, dc := 'D' },
         { date := "2024-01-02", amount := 30, dc := 'C' }])
      "A00000000000001" = some 70 := by
  rw [transact_balance_invariant
    { customers := [{ account := "A00000000000001", name := "Alice", balance := 0 }],
      transactions := [], nextNumber := 1 }
    "A00000000000001"
    [{ date := "2024-01-01", amount := 100, dc := 'D' },
     { date := "2024-01-02", amount := 30, dc := 'C' }]
    (by decide)
    (by intro c hc; fin_cases hc <;> simp)]
  simp [getBalance, lookupBalance, signedSum, signedValue]
  norm_num

/-- The two effects of one `transact` call applied together: the balance
update followed by the `Transactions` insert. -/
def applyBoth (s : DBState) (a d : String) (amt : Rat) (dc : Char) : Option DBState :=
  insertTransaction (updateBalance s a amt (dc == 'D')) a d amt dc

/-- Claim C2: `transact` is atomic: for every call, either both the
balance update on the `Customers` row and the insertion of the new
`Transactions` row take effect, or, when a store error occurs at any
point during the operation, neither effect is observable afterward
(full rollback, state unchanged). -/
theorem transact_atomic (s : DBState) (a d : String) (raw : RawAmount)
    (dc : Char) (fault : Fault) :
    (∃ amt s2, raw = RawAmount.valid amt ∧ applyBoth s a d amt dc = some s2 ∧
      transact s a d raw dc fault = (s2, TransactOutcome.committed))
    ∨ (transact s a d raw dc fault).1 = s := by
  cases raw with
  | invalid r => right; rfl
  | valid amt =>
    cases fault with
    | duringUpdate => right; simp [transact, validate_amount]
    | duringInsert => right; simp [transact, validate_amount]
    | duringCommit =>
      right
      cases h : insertTransaction (updateBalance s a amt (dc == 'D')) a d amt dc with
      | none => simp [transact, validate_amount, h]
      | some s2 => simp [transact, validate_amount, h]
    | noFault =>
      cases h : insertTransaction (updateBalance s a amt (dc == 'D')) a d amt dc with
      | none => right; simp [transact, validate_amount, h]
      | some s2 =>
        left
        exact ⟨amt, s2, rfl, h, by simp [transact, validate_amount, h]⟩

/-- The empty database right after schema creation (`nextNumber` starts
at 1, as SQLite AUTOINCREMENT does). -/
def emptyDB : DBState :=
  { customers := [], transactions := [], nextNumber := 1 }

/-- Claim C3 counterexample: on an account identifier absent from
`Customers`, `transact` does NOT fail before acting: the balance update
matches zero rows, the insert succeeds (the foreign key is not
enforced because `PRAGMA foreign_keys` is never enabled), the call
commits, and an orphan `Transactions` row is created. -/
theorem transact_unknown_account_inserts_row :
    account_exists emptyDB "UNKNOWN000000A" = false ∧
    (transact emptyDB "UNKNOWN000000A" "2026-10-12" (RawAmount.valid 50) 'D'
      Fault.noFault).2 = TransactOutcome.committed ∧
    (transact emptyDB "UNKNOWN000000A" "2026-10-12" (RawAmount.valid 50) 'D'
      Fault.noFault).1.transactions ≠ [] := by
  refine ⟨rfl, rfl, ?_⟩
  decide

theorem updateBalanceRows_not_exists (rows : List Customer) (a : String)
    (amt : Rat) (isD : Bool)
    (h : rows.any (fun c => c.account == a) = false) :
    updateBalanceRows rows a amt isD = rows := by
  induction rows with
  | nil => rfl
  | cons c rest ih =>
    simp only [List.any_cons, Bool.or_eq_false_iff, beq_eq_false_iff_ne] at h
    simp only [updateBalanceRows, List.map_cons, if_neg h.1]
    have := ih (by simpa using h.2)
    simpa [updateBalanceRows] using this

/-- Claim C3, amended: for every account identifier absent from the
`Customers` table and a valid direction, `transact` does not fail: it
leaves `Customers` unchanged (the `UPDATE` matches zero rows), appends
an orphan row to `Transactions` (the foreign key is not enforced), and
commits. -/
theorem transact_unknown_account (s : DBState) (a d : String) (amt : Rat)
    (dc : Char) (hdc : dc = 'D' ∨ dc = 'C')
    (hex : account_exists s a = false) :
    transact s a d (RawAmount.valid amt) dc Fault.noFault =
      ({ customers := s.customers,
         transactions := s.transactions ++
           [{ number := s.nextNumber, account := a, date := d,
              amount := amt, dc := dc }],
         nextNumber := s.nextNumber + 1 }, TransactOutcome.committed) := by
  rw [transact_ok s a d amt dc hdc,
    updateBalanceRows_not_exists s.customers a amt (dc == 'D') hex]

/-- A closed instance of `transact_unknown_account`: a Credit of 25 on
an absent account commits and appends exactly one orphan row. -/
theorem transact_unknown_account_witness :
    transact emptyDB "NOEXIST12345678" "2026-01-01" (RawAmount.valid 25) 'C'
      Fault.noFault =
      ({ customers := [],
         transactions := [{ number := 1, account := "NOEXIST12345678",
                            date := "2026-01-01", amount := 25, dc := 'C' }],
         nextNumber := 2 }, TransactOutcome.committed) := by
  exact transact_unknown_account emptyDB "NOEXIST12345678" "2026-01-01" 25 'C'
    (Or.inr rfl) (by decide)

-- ### Account creation: identifier generation and the retry loop

/-- The alphabet `string.ascii_uppercase + string.digits` used by
`generate_random_account_number` (src/main.py:368). -/
def accountChars : List Char :=
  "ABCDEFGHIJKLMNOPQRSTUVWXYZ0123456789".toList

theorem accountChars_length : accountChars.length = 36 := by decide

/-- `generate_random_account_number` (src/main.py:361):
`''.join(random.choices(characters, k=15))`.  The fifteen random draws
are modelled explicitly as indexes into the 36-character alphabet. -/
def generate_random_account_number (draws : Fin 15 → Fin 36) : String :=
  String.mk ((List.finRange 15).map
    (fun i => accountChars.get (Fin.cast accountChars_length.symm (draws i))))

theorem generate_random_account_number_length (draws : Fin 15 → Fin 36) :
    (generate_random_account_number draws).length = 15 := by
  simp [generate_random_account_number, String.length]

theorem generate_random_account_number_chars (draws : Fin 15 → Fin 36) :
    ∀ ch ∈ (generate_random_account_number draws).toList, ch ∈ accountChars := by
  intro ch hch
  simp only [generate_random_account_number, String.toList, List.mem_map] at hch
  obtain ⟨i, _, hi⟩ := hch
  rw [← hi]
  exact List.get_mem _ _ _

/-- The collision-retry loop of `add_customer` (src/main.py:129): keep
regenerating while `account_exists` holds, else take the candidate.
`cands` is the stream of generator outputs the loop consumes (a finite
prefix of it); `none` models the loop not having terminated within the
supplied prefix. -/
def pickFresh (s : DBState) : List String → Option String
  | [] => none
  | c :: rest => if account_exists s c then pickFresh s rest else some c

/-- The outcome of an `add_customer` call. -/
inductive AddOutcome where
  | ok : String → AddOutcome
  | invalidName
  | invalidAmount
  | noFreshCandidate
  | storeError
deriving DecidableEq, Repr

/-- `add_customer` (src/main.py:106): validates the name (returning
early, before any store access), then the balance, then runs the
collision-retry loop and executes `INSERT INTO Customers`; an injected
store error on the insert rolls back. -/
def add_customer (s : DBState) (name : String) (balance : RawAmount)
    (cands : List String) (fault : Bool) : DBState × AddOutcome :=
  if validate_customer_name name then
    match validate_amount balance with
    | none => (s, .invalidAmount)
    | some bal =>
      match pickFresh s cands with
      | none => (s, .noFreshCandidate)
      | some account =>
        if fault then (s, .storeError)
        else ({ s with customers := s.customers ++
                 [{ account := account, name := name, balance := bal }] },
              .ok account)
  else (s, .invalidName)

/-- One requested account creation: the name and initial balance passed
to `add_customer`, plus the generator stream its retry loop reads. -/
structure AddSpec where
  name : String
  balance : RawAmount
  cands : List String

/-- A sequence of fault-free `add_customer` calls, returning the final
state and the outcome of each call in order. -/
def add_customers : DBState → List AddSpec → DBState × List AddOutcome
  | s, [] => (s, [])
  | s, sp :: rest =>
    let r := add_customer s sp.name sp.balance sp.cands false
    let rr := add_customers r.1 rest
    (rr.1, r.2 :: rr.2)

/-- The account identifiers of all `Customers` rows, in insertion order. -/
def accountsOf (s : DBState) : List String :=
  s.customers.map (fun c => c.account)

theorem account_exists_iff (s : DBState) (a : String) :
    account_exists s a = true ↔ a ∈ accountsOf s := by
  simp [account_exists, accountsOf, List.any_eq_true]

theorem pickFresh_mem (s : DBState) (cands : List String) (c : String)
    (h : pickFresh s cands = some c) :
    c ∈ cands ∧ account_exists s c = false := by
  induction cands with
  | nil => simp [pickFresh] at h
  | cons x rest ih =>
    by_cases hx : account_exists s x = true
    · rw [pickFresh, if_pos hx] at h
      rcases ih h with ⟨h1, h2⟩
      exact ⟨List.mem_cons_of_mem x h1, h2⟩
    · rw [pickFresh, if_neg hx] at h
      injection h with h1
      subst h1
      exact ⟨List.mem_cons_self x rest, by simpa using hx⟩

theorem add_customer_ok (s : DBState) (name : String) (balance : RawAmount)
    (cands : List String) (a : String)
    (h : (add_customer s name balance cands false).2 = AddOutcome.ok a) :
    a ∈ cands ∧ account_exists s a = false ∧
    ∃ bal, validate_amount balance = some bal ∧
      (add_customer s name balance cands false).1 =
        { s with customers := s.customers ++
            [{ account := a, name := name, balance := bal }] } := by
  by_cases hn : validate_customer_name name
  · cases hb : validate_amount balance with
    | none => simp [add_customer, hn, hb] at h
    | some bal =>
      cases hp : pickFresh s cands with
      | none => simp [add_customer, hn, hb, hp] at h
      | some acc =>
        have heq : acc = a := by
          simpa [add_customer, hn, hb, hp] using h
        subst heq
        rcases pickFresh_mem s cands acc hp with ⟨h1, h2⟩
        exact ⟨h1, h2, bal, rfl, by simp [add_customer, hn, hb, hp]⟩
  · simp [add_customer, hn] at h

/-- Claim C4: every identifier produced by the generator is exactly 15
characters from {A–Z, 0–9}; and for every sequence of successful
`add_customer` calls whose retry loops read generator outputs, the
resulting table has pairwise distinct identifiers, one new row per
call, every new identifier being a 15-character {A–Z, 0–9} string. -/
theorem create_accounts_distinct (s : DBState) (specs : List AddSpec)
    (hnodup : (accountsOf s).Nodup)
    (hok : ∀ o ∈ (add_customers s specs).2, ∃ a, o = AddOutcome.ok a)
    (hgen : ∀ sp ∈ specs, ∀ c ∈ sp.cands,
      ∃ d, c = generate_random_account_number d) :
    (accountsOf (add_customers s specs).1).Nodup ∧
    (add_customers s specs).1.customers.length
      = s.customers.length + specs.length ∧
    ∀ a ∈ accountsOf (add_customers s specs).1,
      a ∈ accountsOf s ∨
        (a.length = 15 ∧ ∀ ch ∈ a.toList, ch ∈ accountChars) := by
  induction specs generalizing s with
  | nil =>
    refine ⟨hnodup, by simp [add_customers], ?_⟩
    intro a ha
    exact Or.inl ha
  | cons sp rest ih =>
    have hout : (add_customers s (sp :: rest)).2 =
        (add_customer s sp.name sp.balance sp.cands false).2 ::
        (add_customers (add_customer s sp.name sp.balance sp.cands false).1 rest).2 := rfl
    obtain ⟨a, ha⟩ := hok _ (by rw [hout]; exact List.mem_cons_self _ _)
    rcases add_customer_ok s sp.name sp.balance sp.cands a ha with
      ⟨hmem, hfresh, bal, hbal, hstate⟩
    have hstep : (add_customers s (sp :: rest)).1 =
        (add_customers (add_customer s sp.name sp.balance sp.cands false).1 rest).1 := rfl
    have haccounts : accountsOf (add_customer s sp.name sp.balance sp.cands false).1 =
        accountsOf s ++ [a] := by
      rw [hstate]; simp [accountsOf]
    have hnodup1 : (accountsOf (add_customer s sp.name sp.balance sp.cands false).1).Nodup := by
      rw [haccounts]
      refine List.Nodup.append hnodup (List.nodup_singleton a) ?_
      intro x hx hx1
      simp only [List.mem_singleton] at hx1
      subst hx1
      exact absurd ((account_exists_iff s x).mpr hx) (by simp [hfresh])
    have hok1 : ∀ o ∈ (add_customers (add_customer s sp.name sp.balance sp.cands false).1 rest).2,
        ∃ b, o = AddOutcome.ok b := by
      intro o ho
      exact hok o (by rw [hout]; exact List.mem_cons_of_mem _ ho)
    have hgen1 : ∀ x ∈ rest, ∀ c ∈ x.cands, ∃ d, c = generate_random_account_number d :=
      fun x hx => hgen x (List.mem_cons_of_mem sp hx)
    obtain ⟨ihnodup, ihlen, ihnew⟩ :=
      ih (add_customer s sp.name sp.balance sp.cands false).1 hnodup1 hok1 hgen1
    refine ⟨by rw [hstep]; exact ihnodup, ?_, ?_⟩
    · rw [hstep, ihlen, hstate]
      simp
      omega
    · intro b hb
      rw [hstep] at hb
      rcases ihnew b hb with hb1 | hb1
      · rw [haccounts] at hb1
        rcases List.mem_append.mp hb1 with hb2 | hb2
        · exact Or.inl hb2
        · simp only [List.mem_singleton] at hb2
          subst hb2
          obtain ⟨d, hd⟩ := hgen sp (List.mem_cons_self sp rest) b hmem
          subst hd
          exact Or.inr ⟨generate_random_account_number_length d,
            generate_random_account_number_chars d⟩
      · exact Or.inr hb1

/-- A closed instance of `create_accounts_distinct`: two successful
creations from the empty database yield two distinct well-formed
identifiers. -/
theorem create_accounts_distinct_witness :
    (accountsOf (add_customers emptyDB
      [{ name := "Alice", balance := RawAmount.valid 0,
         cands := [generate_random_account_number (fun _ => 0)] },
       { name := "Bob", balance := RawAmount.valid 0,
         cands := [generate_random_account_number (fun _ => 1)] }]).1).Nodup ∧
    (add_customers emptyDB
      [{ name := "Alice", balance := RawAmount.valid 0,
         cands := [generate_random_account_number (fun _ => 0)] },
       { name := "Bob", balance := RawAmount.valid 0,
         cands := [generate_random_account_number (fun _ => 1)] }]).1.customers.length
      = emptyDB.customers.length +
        ([{ name := "Alice", balance := RawAmount.valid 0,
            cands := [generate_random_account_number (fun _ => 0)] },
          { name := "Bob", balance := RawAmount.valid 0,
            cands := [generate_random_account_number (fun _ => 1)] }] : List AddSpec).length ∧
    ∀ a ∈ accountsOf (add_customers emptyDB
      [{ name := "Alice", balance := RawAmount.valid 0,
         cands := [generate_random_account_number (fun _ => 0)] },
       { name := "Bob", balance := RawAmount.valid 0,
         cands := [generate_random_account_number (fun _ => 1)] }]).1,
      a ∈ accountsOf emptyDB ∨
        (a.length = 15 ∧ ∀ ch ∈ a.toList, ch ∈ accountChars) := by
  refine create_accounts_distinct emptyDB _ (by simp [accountsOf, emptyDB]) ?_ ?_
  · intro o ho
    rw [show (add_customers emptyDB
      [{ name := "Alice", balance := RawAmount.valid 0,
         cands := [generate_random_account_number (fun _ => 0)] },
       { name := "Bob", balance := RawAmount.valid 0,
         cands := [generate_random_account_number (fun _ => 1)] }]).2 =
      [AddOutcome.ok (generate_random_account_number (fun _ => 0)),
       AddOutcome.ok (generate_random_account_number (fun _ => 1))] from rfl] at ho
    simp only [List.mem_cons, List.not_mem_nil, or_false] at ho
    rcases ho with h | h <;> exact ⟨_, h⟩
  · intro sp hsp c hc
    simp only [List.mem_cons, List.not_mem_nil, or_false] at hsp
    rcases hsp with h | h <;> subst h <;>
      simp only [List.mem_singleton] at hc <;> subst hc <;> exact ⟨_, rfl⟩

/-- Claim C5: a name longer than 30 characters makes `add_customer`
fail with the invalid-name error before touching the store (state
unchanged, no row created); with a valid name, a non-representable
balance makes it fail likewise with the invalid-amount error. -/
theorem add_customer_validates_first (s : DBState) (name : String)
    (balance : RawAmount) (cands : List String) (fault : Bool) :
    (30 < name.length →
      add_customer s name balance cands fault = (s, AddOutcome.invalidName)) ∧
    (name.length ≤ 30 → validate_amount balance = none →
      add_customer s name balance cands fault = (s, AddOutcome.invalidAmount)) := by
  constructor
  · intro h
    have hv : validate_customer_name name = false := by
      simp only [validate_customer_name, decide_eq_false_iff_not]
      omega
    simp [add_customer, hv]
  · intro h1 h2
    have hv : validate_customer_name name = true := by
      simp [validate_customer_name, h1]
    simp [add_customer, hv, h2]

/-- A closed instance of `add_customer_validates_first`: a 31-character
name is rejected, and an unparsable amount is rejected, both with no
state change. -/
theorem add_customer_validates_first_witness :
    (add_customer emptyDB (String.mk (List.replicate 31 'x'))
      (RawAmount.valid 0) [] false = (emptyDB, AddOutcome.invalidName)) ∧
    (add_customer emptyDB "Bob" (RawAmount.invalid "abc") [] false
      = (emptyDB, AddOutcome.invalidAmount)) :=
  ⟨(add_customer_validates_first emptyDB (String.mk (List.replicate 31 'x'))
      (RawAmount.valid 0) [] false).1 (by decide),
   (add_customer_validates_first emptyDB "Bob" (RawAmount.invalid "abc")
      [] false).2 (by decide) rfl⟩

-- ### Renaming an account

/-- The outcome of an `update_customer` call. -/
inductive UpdateOutcome where
  | ok
  | invalidName
  | storeError
deriving DecidableEq, Repr

/-- `update_customer` (src/main.py:151): validates the new name
(returning early on failure, before any store access), then executes
`UPDATE Customers SET name = ? WHERE account = ?` and commits; SQLite
reports success whether the `WHERE` matched 0 rows or 1, and the
function does not inspect the row count.  An injected store error rolls
back. -/
def update_customer (s : DBState) (account new_name : String) (fault : Bool) :
    DBState × UpdateOutcome :=
  if validate_customer_name new_name then
    if fault then (s, .storeError)
    else
      ({ s with
          customers := s.customers.map (fun c =>
            if c.account = account then { c with name := new_name } else c) },
        .ok)
  else (s, .invalidName)

/-- Claim C7: for every account identifier not present in `Customers`
and every valid new name, `update_customer` completes as a no-op
success: it returns success and produces zero observable state change
in both the `Customers` and `Transactions` tables. -/
theorem update_customer_absent_noop (s : DBState) (account new_name : String)
    (hex : account_exists s account = false)
    (hn : new_name.length ≤ 30) :
    update_customer s account new_name false = (s, UpdateOutcome.ok) := by
  have hv : validate_customer_name new_name = true := by
    simp [validate_customer_name, hn]
  have hall : ∀ c ∈ s.customers,
      (if c.account = account then { c with name := new_name } else c) = id c := by
    intro c hc
    rw [if_neg, id]
    intro hca
    have hmem : account ∈ accountsOf s := by
      exact List.mem_map.mpr ⟨c, hc, hca⟩
    exact absurd ((account_exists_iff s account).mpr hmem) (by simp [hex])
  have hmap : s.customers.map
      (fun c => if c.account = account then { c with name := new_name } else c)
      = s.customers := by
    rw [List.map_congr_left hall, List.map_id]
  simp [update_customer, hv, hmap]

/-- A closed instance of `update_customer_absent_noop`. -/
theorem update_customer_absent_noop_witness :
    update_customer emptyDB "NOEXIST12345678" "X" false
      = (emptyDB, UpdateOutcome.ok) :=
  update_customer_absent_noop emptyDB "NOEXIST12345678" "X" (by decide) (by decide)

-- ### Listing customers: filter and sort semantics

/-- An ASCII-infix test on character lists: `true` when `pat` occurs
contiguously inside the first list. -/
def hasSub : List Char → List Char → Bool
  | [], pat => pat.isPrefixOf []
  | h :: t, pat => pat.isPrefixOf (h :: t) || hasSub t pat

/-- SQLite `field LIKE '%term%'`: substring containment, ASCII
case-insensitive (SQLite's default LIKE). -/
def likeMatch (field term : String) : Bool :=
  hasSub field.toUpper.toList term.toUpper.toList

/-- The direction string computed from the 'Sort:' direction combobox
(src/main.py:257 and src/main.py:317): `"Low - High"` gives `ASC`,
`"High - Low"` gives `DESC`, anything else the empty string (SQLite
then defaults to ascending). -/
def sort_from_string (sort_from : String) : String :=
  if sort_from = "Low - High" then "ASC"
  else if sort_from = "High - Low" then "DESC"
  else ""

/-- `ORDER BY key dir` on the selected rows: `DESC` flips the
comparison; an empty direction is SQLite's default `ASC`.  The stable
sort models equal keys staying in table (insertion) order. -/
def orderByKey {α β : Type} [LinearOrder β] (rows : List α) (key : α → β)
    (dir : String) : List α :=
  if dir = "DESC" then rows.mergeSort (fun a b => decide (key b ≤ key a))
  else rows.mergeSort (fun a b => decide (key a ≤ key b))

/-- The row sequence `display_customers` (src/main.py:242) inserts into
the tree: the result of its constructed query — filter rows on
`name LIKE ? OR account LIKE ?` only when the search text is nonempty,
`ORDER BY` only for the three explicit sort keys — followed by the
Python-side `rows.reverse()` when the sort key is Default and the
direction maps to `DESC`. -/
def display_customers_rows (s : DBState) (search_term sort_by sort_from : String) :
    List Customer :=
  let rows := if search_term = "" then s.customers
    else s.customers.filter
      (fun c => likeMatch c.name search_term || likeMatch c.account search_term)
  let sfs := sort_from_string sort_from
  if sort_by = "Default" then (if sfs = "DESC" then rows.reverse else rows)
  else if sort_by = "Account" then orderByKey rows (fun c => c.account) sfs
  else if sort_by = "Name" then orderByKey rows (fun c => c.name) sfs
  else if sort_by = "Balance" then orderByKey rows (fun c => c.balance) sfs
  else rows

/-- Claim C6: with an empty filter, sort key Name and direction
Ascending, `display_customers` returns all accounts ordered by name
non-decreasing; with an empty filter, Default and Descending it returns
exactly the reverse insertion order; Default and Ascending leaves the
insertion order unchanged. -/
theorem display_customers_sort (s : DBState) :
    (display_customers_rows s "" "Name" "Low - High").Perm s.customers ∧
    List.Pairwise (fun a b => a.name ≤ b.name)
      (display_customers_rows s "" "Name" "Low - High") ∧
    display_customers_rows s "" "Default" "High - Low" = s.customers.reverse ∧
    display_customers_rows s "" "Default" "Low - High" = s.customers := by
  have hname : display_customers_rows s "" "Name" "Low - High" =
      s.customers.mergeSort (fun a b => decide (a.name ≤ b.name)) := rfl
  refine ⟨?_, ?_, rfl, rfl⟩
  · rw [hname]
    exact List.mergeSort_perm s.customers _
  · rw [hname]
    have hs := @List.sorted_mergeSort Customer
      (fun a b : Customer => decide (a.name ≤ b.name))
      (fun a b c hab hbc => by
        simp only [decide_eq_true_eq] at hab hbc ⊢
        exact le_trans hab hbc)
      (fun a b => by
        simp only [Bool.or_eq_true, decide_eq_true_eq]
        exact le_total a.name b.name)
      s.customers
    exact hs.imp (fun h => by simpa using h)

-- ### Query construction for the two display portals

/-- Case-sensitive substring test on query text. -/
def textHasSub (s pat : String) : Bool :=
  hasSub s.toList pat.toList

/-- The constructed query: SQL text, the bound parameters passed to
`cursor.execute` alongside it, and the Python-side reverse flag. -/
structure QueryPlan where
  text : String
  params : List String
  reverse : Bool
deriving DecidableEq, Repr

/-- The `sort_string` computed by `display_customers` (src/main.py:266):
an `ORDER BY` fragment for the three explicit keys, the empty string
for `Default` and for any unrecognised key. -/
def customer_sort_string (sort_by sfs : String) : String :=
  if sort_by = "Default" then ""
  else if sort_by = "Account" then "ORDER BY account " ++ sfs
  else if sort_by = "Name" then "ORDER BY name " ++ sfs
  else if sort_by = "Balance" then "ORDER BY balance " ++ sfs
  else ""

/-- The `sort_string` computed by `display_transactions`
(src/main.py:325): an `ORDER BY` fragment for the four keys, the empty
string otherwise. -/
def transaction_sort_string (sort_by sfs : String) : String :=
  if sort_by = "Number" then "ORDER BY number " ++ sfs
  else if sort_by = "Account" then "ORDER BY account " ++ sfs
  else if sort_by = "Date" then "ORDER BY date " ++ sfs
  else if sort_by = "Amount" then "ORDER BY amount " ++ sfs
  else ""

/-- The query construction of `display_customers` (src/main.py:251–290):
the `WHERE` fragment only when the search text is nonempty, clauses
concatenated only when nonempty, and the search term passed only
through the parameter list (`'%' + search_term + '%'`, twice). -/
def customer_query (search_term sort_by sort_from : String) : QueryPlan :=
  let search_string :=
    if search_term = "" then "" else "WHERE name LIKE ? OR account LIKE ?"
  let sfs := sort_from_string sort_from
  let sort_string := customer_sort_string sort_by sfs
  let q := "SELECT * FROM Customers"
  let q := if search_string = "" then q else q ++ " " ++ search_string
  let q := if sort_string = "" then q else q ++ " " ++ sort_string
  { text := q,
    params := if search_string = "" then []
      else ["%" ++ search_term ++ "%", "%" ++ search_term ++ "%"],
    reverse := decide (sort_by = "Default" ∧ sfs = "DESC") }

/-- The query construction of `display_transactions`
(src/main.py:313–349): the `WHERE` fragment only when the search text is
nonempty, and the search term passed only through the parameter list
(three bound copies). -/
def transaction_query (search_term sort_by sort_from : String) : QueryPlan :=
  let search_string :=
    if search_term = "" then ""
    else "WHERE number LIKE ? OR account LIKE ? OR date LIKE ?"
  let sfs := sort_from_string sort_from
  let sort_string := transaction_sort_string sort_by sfs
  let q := "SELECT * FROM Transactions"
  let q := if search_string = "" then q else q ++ " " ++ search_string
  let q := if sort_string = "" then q else q ++ " " ++ sort_string
  { text := q,
    params := if search_string = "" then []
      else ["%" ++ search_term ++ "%", "%" ++ search_term ++ "%",
            "%" ++ search_term ++ "%"],
    reverse := false }

theorem sort_from_string_cases (sf : String) :
    sort_from_string sf = "ASC" ∨ sort_from_string sf = "DESC" ∨
    sort_from_string sf = "" := by
  unfold sort_from_string
  split_ifs <;> simp

theorem customer_sort_string_cases (sb sfs : String) :
    customer_sort_string sb sfs = "" ∨
    customer_sort_string sb sfs = "ORDER BY account " ++ sfs ∨
    customer_sort_string sb sfs = "ORDER BY name " ++ sfs ∨
    customer_sort_string sb sfs = "ORDER BY balance " ++ sfs := by
  unfold customer_sort_string
  split_ifs <;> simp

theorem transaction_sort_string_cases (sb sfs : String) :
    transaction_sort_string sb sfs = "" ∨
    transaction_sort_string sb sfs = "ORDER BY number " ++ sfs ∨
    transaction_sort_string sb sfs = "ORDER BY account " ++ sfs ∨
    transaction_sort_string sb sfs = "ORDER BY date " ++ sfs ∨
    transaction_sort_string sb sfs = "ORDER BY amount " ++ sfs := by
  unfold transaction_sort_string
  split_ifs <;> simp

theorem customer_query_text_eq (term sb sf : String) :
    (customer_query term sb sf).text =
      (if term = "" then "SELECT * FROM Customers"
       else "SELECT * FROM Customers WHERE name LIKE ? OR account LIKE ?") ++
      (if customer_sort_string sb (sort_from_string sf) = "" then ""
       else " " ++ customer_sort_string sb (sort_from_string sf)) := by
  have e1 : ("SELECT * FROM Customers" ++ " " : String)
      = "SELECT * FROM Customers " := by decide
  have e2 : ("SELECT * FROM Customers WHERE name LIKE ? OR account LIKE ?" ++ " " : String)
      = "SELECT * FROM Customers WHERE name LIKE ? OR account LIKE ? " := by decide
  by_cases ht : term = "" <;>
    by_cases hs : customer_sort_string sb (sort_from_string sf) = "" <;>
      simp [customer_query, ht, hs, ← String.append_assoc, e1, e2]

theorem transaction_query_text_eq (term sb sf : String) :
    (transaction_query term sb sf).text =
      (if term = "" then "SELECT * FROM Transactions"
       else "SELECT * FROM Transactions WHERE number LIKE ? OR account LIKE ? OR date LIKE ?") ++
      (if transaction_sort_string sb (sort_from_string sf) = "" then ""
       else " " ++ transaction_sort_string sb (sort_from_string sf)) := by
  have e1 : ("SELECT * FROM Transactions" ++ " " : String)
      = "SELECT * FROM Transactions " := by decide
  have e2 : ("SELECT * FROM Transactions WHERE number LIKE ? OR account LIKE ? OR date LIKE ?" ++ " " : String)
      = "SELECT * FROM Transactions WHERE number LIKE ? OR account LIKE ? OR date LIKE ? " := by decide
  by_cases ht : term = "" <;>
    by_cases hs : transaction_sort_string sb (sort_from_string sf) = "" <;>
      simp [transaction_query, ht, hs, ← String.append_assoc, e1, e2]

theorem customer_query_no_where (sb sf : String) :
    textHasSub (customer_query "" sb sf).text "WHERE" = false := by
  rw [customer_query_text_eq]
  rcases customer_sort_string_cases sb (sort_from_string sf) with h | h | h | h <;>
    rw [h] <;>
    rcases sort_from_string_cases sf with h2 | h2 | h2 <;>
      (try rw [h2]) <;> decide

theorem transaction_query_no_where (sb sf : String) :
    textHasSub (transaction_query "" sb sf).text "WHERE" = false := by
  rw [transaction_query_text_eq]
  rcases transaction_sort_string_cases sb (sort_from_string sf) with h | h | h | h | h <;>
    rw [h] <;>
    rcases sort_from_string_cases sf with h2 | h2 | h2 <;>
      (try rw [h2]) <;> decide

theorem customer_query_no_order (term sb sf : String)
    (h1 : sb ≠ "Account") (h2 : sb ≠ "Name") (h3 : sb ≠ "Balance") :
    textHasSub (customer_query term sb sf).text "ORDER BY" = false := by
  have hss : customer_sort_string sb (sort_from_string sf) = "" := by
    unfold customer_sort_string
    split_ifs <;>
      first
      | rfl
      | exact absurd (by assumption) h1
      | exact absurd (by assumption) h2
      | exact absurd (by assumption) h3
  rw [customer_query_text_eq, hss]
  by_cases ht : term = "" <;> simp only [ht, if_true, if_false] <;>
    simp [ht] <;> decide

theorem transaction_query_no_order (term sb sf : String)
    (h1 : sb ≠ "Number") (h2 : sb ≠ "Account") (h3 : sb ≠ "Date")
    (h4 : sb ≠ "Amount") :
    textHasSub (transaction_query term sb sf).text "ORDER BY" = false := by
  have hss : transaction_sort_string sb (sort_from_string sf) = "" := by
    unfold transaction_sort_string
    split_ifs <;>
      first
      | rfl
      | exact absurd (by assumption) h1
      | exact absurd (by assumption) h2
      | exact absurd (by assumption) h3
      | exact absurd (by assumption) h4
  rw [transaction_query_text_eq, hss]
  by_cases ht : term = "" <;> simp only [ht, if_true, if_false] <;>
    simp [ht] <;> decide

theorem customer_query_params_eq (term sb sf : String) :
    (customer_query term sb sf).params =
      if term = "" then [] else ["%" ++ term ++ "%", "%" ++ term ++ "%"] := by
  by_cases ht : term = "" <;> simp [customer_query, ht]

theorem transaction_query_params_eq (term sb sf : String) :
    (transaction_query term sb sf).params =
      if term = "" then []
      else ["%" ++ term ++ "%", "%" ++ term ++ "%", "%" ++ term ++ "%"] := by
  by_cases ht : term = "" <;> simp [transaction_query, ht]

/-- Claim C8: for every combination of filter text, sort key and sort
direction, both constructed queries omit the `WHERE` clause entirely
when the filter text is empty (and bind no parameters), omit the
`ORDER BY` clause entirely when no sort key applies, keep the query
text independent of the filter text (so user text is never spliced into
the query), and pass the filter text exclusively as bound parameters. -/
theorem query_builder_safe (term sort_by sort_from : String) :
    (term = "" →
      textHasSub (customer_query term sort_by sort_from).text "WHERE" = false ∧
      (customer_query term sort_by sort_from).params = [] ∧
      textHasSub (transaction_query term sort_by sort_from).text "WHERE" = false ∧
      (transaction_query term sort_by sort_from).params = []) ∧
    (sort_by ≠ "Account" → sort_by ≠ "Name" → sort_by ≠ "Balance" →
      textHasSub (customer_query term sort_by sort_from).text "ORDER BY" = false) ∧
    (sort_by ≠ "Number" → sort_by ≠ "Account" → sort_by ≠ "Date" →
      sort_by ≠ "Amount" →
      textHasSub (transaction_query term sort_by sort_from).text "ORDER BY" = false) ∧
    (∀ t2, (term = "" ↔ t2 = "") →
      (customer_query term sort_by sort_from).text
        = (customer_query t2 sort_by sort_from).text ∧
      (transaction_query term sort_by sort_from).text
        = (transaction_query t2 sort_by sort_from).text) ∧
    (term ≠ "" →
      (customer_query term sort_by sort_from).params
        = ["%" ++ term ++ "%", "%" ++ term ++ "%"] ∧
      (transaction_query term sort_by sort_from).params
        = ["%" ++ term ++ "%", "%" ++ term ++ "%", "%" ++ term ++ "%"]) := by
  refine ⟨?_, ?_, ?_, ?_, ?_⟩
  · intro ht
    subst ht
    exact ⟨customer_query_no_where sort_by sort_from,
      by rw [customer_query_params_eq]; simp,
      transaction_query_no_where sort_by sort_from,
      by rw [transaction_query_params_eq]; simp⟩
  · exact customer_query_no_order term sort_by sort_from
  · exact transaction_query_no_order term sort_by sort_from
  · intro t2 h
    by_cases ht : term = ""
    · have ht2 : t2 = "" := h.mp ht
      rw [customer_query_text_eq, customer_query_text_eq,
        transaction_query_text_eq, transaction_query_text_eq, ht, ht2]
      constructor <;> trivial
    · have ht2 : ¬ t2 = "" := fun hh => ht (h.mpr hh)
      rw [customer_query_text_eq, customer_query_text_eq,
        transaction_query_text_eq, transaction_query_text_eq]
      simp only [if_neg ht, if_neg ht2]
      constructor <;> trivial
  · intro ht
    rw [customer_query_params_eq, transaction_query_params_eq,
      if_neg ht, if_neg ht]
    exact ⟨rfl, rfl⟩

/-- A closed instance of `query_builder_safe` at concrete inputs. -/
theorem query_builder_safe_witness :
    (textHasSub (customer_query "" "Default" "High - Low").text "WHERE" = false ∧
     (customer_query "" "Default" "High - Low").params = [] ∧
     textHasSub (transaction_query "" "Default" "High - Low").text "WHERE" = false ∧
     (transaction_query "" "Default" "High - Low").params = []) ∧
    textHasSub (customer_query "abc" "Default" "Low - High").text "ORDER BY" = false ∧
    textHasSub (transaction_query "abc" "Default" "Low - High").text "ORDER BY" = false ∧
    ((customer_query "abc" "Name" "Low - High").text
       = (customer_query "xyz" "Name" "Low - High").text) ∧
    (customer_query "abc" "Name" "Low - High").params = ["%abc%", "%abc%"] ∧
    (transaction_query "abc" "Name" "Low - High").params
      = ["%abc%", "%abc%", "%abc%"] := by
  have h5 := (query_builder_safe "abc" "Name" "Low - High").2.2.2.2 (by decide)
  refine ⟨(query_builder_safe "" "Default" "High - Low").1 rfl,
    (query_builder_safe "abc" "Default" "Low - High").2.1
      (by decide) (by decide) (by decide),
    (query_builder_safe "abc" "Default" "Low - High").2.2.1
      (by decide) (by decide) (by decide) (by decide),
    ((query_builder_safe "abc" "Name" "Low - High").2.2.2.1 "xyz" (by decide)).1,
    h5.1.trans (by decide), h5.2.trans (by decide)⟩

-- ### Schema creation

/-- The schema objects of the SQLite database file: table names and
index names. -/
structure Schema where
  tables : List String
  indexes : List String
deriving DecidableEq, Repr

/-- `CREATE TABLE IF NOT EXISTS`: no change when the table is already
present. -/
def createTableIfNotExists (sch : Schema) (t : String) : Schema :=
  if t ∈ sch.tables then sch else { sch with tables := sch.tables ++ [t] }

/-- `CREATE INDEX IF NOT EXISTS`: no change when the index is already
present. -/
def createIndexIfNotExists (sch : Schema) (i : String) : Schema :=
  if i ∈ sch.indexes then sch else { sch with indexes := sch.indexes ++ [i] }

/-- The result of running the schema initialiser: the resulting schema,
or the fatal path — `logger.error(...)` then `exit(1)`
(src/main.py:71–73) — which ends the process before the UI is built and
before any ledger operation is served (src/main.py:629 runs first). -/
inductive InitResult where
  | ok : Schema → InitResult
  | fatalExit : Nat → InitResult
deriving DecidableEq, Repr

/-- `CREATE_DEFAULT_TABLES` (src/main.py:23): two `CREATE TABLE IF NOT
EXISTS` and four `CREATE INDEX IF NOT EXISTS` statements inside one
`try`; any `sqlite3.Error` (injected via `fault`) is logged to the
operator and the process exits with code 1. -/
def CREATE_DEFAULT_TABLES (sch : Schema) (fault : Bool) : InitResult :=
  if fault then .fatalExit 1
  else
    let sch := createTableIfNotExists sch "Customers"
    let sch := createIndexIfNotExists sch "idx_customers_account"
    let sch := createIndexIfNotExists sch "idx_customers_name"
    let sch := createTableIfNotExists sch "Transactions"
    let sch := createIndexIfNotExists sch "idx_transactions_number"
    let sch := createIndexIfNotExists sch "idx_transactions_account"
    .ok sch

/-- All six objects `CREATE_DEFAULT_TABLES` guarantees are present. -/
def hasDefaultSchema (sch : Schema) : Bool :=
  decide ("Customers" ∈ sch.tables ∧ "Transactions" ∈ sch.tables ∧
    "idx_customers_account" ∈ sch.indexes ∧
    "idx_customers_name" ∈ sch.indexes ∧
    "idx_transactions_number" ∈ sch.indexes ∧
    "idx_transactions_account" ∈ sch.indexes)

/-- Claim C9: `CREATE_DEFAULT_TABLES` is idempotent — run when the
tables and indexes already exist it succeeds and leaves the schema
unchanged — and any failure to create the schema is fatal to process
startup: the process exits (code 1, after logging the error) without
serving any ledger operation. -/
theorem create_default_tables_idempotent_fatal (sch : Schema) (fault : Bool) :
    (hasDefaultSchema sch = true →
      CREATE_DEFAULT_TABLES sch false = InitResult.ok sch) ∧
    (fault = true →
      CREATE_DEFAULT_TABLES sch fault = InitResult.fatalExit 1) := by
  constructor
  · intro h
    simp only [hasDefaultSchema, decide_eq_true_eq] at h
    obtain ⟨h1, h2, h3, h4, h5, h6⟩ := h
    simp [CREATE_DEFAULT_TABLES, createTableIfNotExists, createIndexIfNotExists,
      h1, h2, h3, h4, h5, h6]
  · intro h
    subst h
    rfl

/-- The schema a fresh successful run produces. -/
def defaultSchema : Schema :=
  { tables := ["Customers", "Transactions"],
    indexes := ["idx_customers_account", "idx_customers_name",
                "idx_transactions_number", "idx_transactions_account"] }

/-- A closed instance of `create_default_tables_idempotent_fatal`. -/
theorem create_default_tables_witness :
    CREATE_DEFAULT_TABLES defaultSchema false = InitResult.ok defaultSchema ∧
    CREATE_DEFAULT_TABLES defaultSchema true = InitResult.fatalExit 1 :=
  ⟨(create_default_tables_idempotent_fatal defaultSchema false).1 (by decide),
   (create_default_tables_idempotent_fatal defaultSchema true).2 rfl⟩

-- ### Invalid direction characters

/-- Claim C10: for every direction value outside {'D','C'} passed to
`transact` on an existing account, the balance-update step computes the
amount as a credit (`operator` falls to `"-"`), but the subsequent
`Transactions` insert violates the `CHECK (DC IN ('D','C'))`
constraint, the operation rolls back, and both tables are left
unchanged. -/
theorem transact_invalid_direction (s : DBState) (a d : String) (amt : Rat)
    (dc : Char) (hD : dc ≠ 'D') (hC : dc ≠ 'C')
    (hex : account_exists s a = true) :
    getBalance (updateBalance s a amt (dc == 'D')) a
      = (getBalance s a).map (fun b => b - amt) ∧
    transact s a d (RawAmount.valid amt) dc Fault.noFault
      = (s, TransactOutcome.rolledBack) := by
  constructor
  · have hbeq : (dc == 'D') = false := by
      rw [beq_eq_false_iff_ne]
      exact hD
    have hu : getBalance (updateBalance s a amt (dc == 'D')) a
        = lookupBalance (updateBalanceRows s.customers a amt (dc == 'D')) a := rfl
    rw [hu, lookupBalance_updateBalanceRows, hbeq]
    simp [getBalance]
  · have hins : insertTransaction (updateBalance s a amt (dc == 'D')) a d amt dc
        = none := by
      simp [insertTransaction, hD, hC]
    simp [transact, validate_amount, hins]

/-- The database with a single customer, used as concrete input. -/
def oneCustomerDB : DBState :=
  { customers := [{ account := "A00000000000001", name := "Alice", balance := 100 }],
    transactions := [], nextNumber := 1 }

/-- A closed instance of `transact_invalid_direction` at direction 'X'. -/
theorem transact_invalid_direction_witness :
    getBalance (updateBalance oneCustomerDB "A00000000000001" 40 ('X' == 'D'))
        "A00000000000001"
      = (getBalance oneCustomerDB "A00000000000001").map (fun b => b - 40) ∧
    transact oneCustomerDB "A00000000000001" "2026-01-01" (RawAmount.valid 40) 'X'
        Fault.noFault
      = (oneCustomerDB, TransactOutcome.rolledBack) :=
  transact_invalid_direction oneCustomerDB "A00000000000001" "2026-01-01" 40 'X'
    (by decide) (by decide) (by decide)
